import Mathlib

/-!
Verification development for the `ollama-proxy` failover reverse proxy
(`src/main.go`). The Go program is embedded shallowly:

* `ServerStatus.serverAOnline` (the shared liveness flag) becomes an explicit
  `Bool` threaded through the step functions; the `sync.RWMutex` disappears in
  the sequential embedding.
* `setServerAStatus` becomes a pure function returning the new flag value and
  the optional transition log event it emits.
* the body of `healthChecker`'s infinite `for` loop becomes `healthCycle`,
  consuming one `ProbeOutcome` per cycle; running the loop over a finite list
  of outcomes is `runHealthChecker`.
* the request handler registered in `main` becomes `handleRequest`, mapping
  the liveness value it read under the lock to the chosen backend proxy.
* `net/http` headers (`map[string][]string` with `Get`/`Set` used only at the
  already-canonical keys `"Connection"` and `"Upgrade"`) become the function
  type `Header := String → List String` with `Header.get` / `Header.set`
  mirroring Go's `textproto.MIMEHeader.Get` and `.Set`.
* `isWebSocketRequest` and the `Director` wrapper installed by
  `configureWebsocketProxy` become `isWebSocketRequest` / `websocketNormalize`.
* the fragment of Go's `net/url.Parse` exercised by `main`'s startup is
  modelled by `urlParse`; `main`'s startup sequence (parse both backend URLs,
  `log.Fatalf` on error, before the listener is bound) becomes `startup`.
-/

/-- Outcome of one probe cycle of `healthChecker` (src/main.go lines 109-127):
`http.NewRequest` failed (`buildError`), `client.Do` failed — which includes
the 2-second client timeout (`transportError true`) and any other transport
failure (`transportError false`) — or a response was received with some status
code (`response`). -/
inductive ProbeOutcome where
  | buildError : ProbeOutcome
  | transportError : (timeout : Bool) → ProbeOutcome
  | response : (statusCode : Nat) → ProbeOutcome
deriving DecidableEq, Repr

/-- The classification `healthChecker` applies to one outcome: the branch on
`err` from `client.Do` (and from `http.NewRequest`) calls
`setServerAStatus(status, false)`; the success branch calls
`setServerAStatus(status, true)` whatever `resp.StatusCode` is. -/
def classify : ProbeOutcome → Bool
  | .buildError => false
  | .transportError _ => false
  | .response _ => true

/-- Transition log events emitted inside `setServerAStatus`:
"Server A is now online. Switching back to server A." and
"Server A is offline. Switching to server B.". -/
inductive TransitionEvent where
  | switchToPrimary : TransitionEvent
  | switchToSecondary : TransitionEvent
deriving DecidableEq, Repr

/-- Embedding of `setServerAStatus` (src/main.go lines 132-144): given the
current stored `serverAOnline` value and the `online` argument, it returns the
new stored value together with the transition event logged, if any. The body
mutates and logs only inside `if status.serverAOnline != online`. -/
def setServerAStatus (current online : Bool) : Bool × Option TransitionEvent :=
  if current != online then
    (online, some (if online then .switchToPrimary else .switchToSecondary))
  else
    (current, none)

/-- One iteration of `healthChecker`'s loop (src/main.go lines 109-129),
abstracted over the probe outcome: every failure branch calls
`setServerAStatus` with `false`, the response branch with `true`; then the
loop sleeps and continues (never returns). -/
def healthCycle (current : Bool) (o : ProbeOutcome) : Bool × Option TransitionEvent :=
  match o with
  | .buildError => setServerAStatus current false
  | .transportError _ => setServerAStatus current false
  | .response _ => setServerAStatus current true

/-- Running `healthChecker`'s loop over a finite list of probe outcomes,
starting from stored value `s`: final stored value and the transition events
emitted, in order. -/
def runHealthChecker : Bool → List ProbeOutcome → Bool × List TransitionEvent
  | s, [] => (s, [])
  | s, o :: os =>
    let c := healthCycle s o
    let r := runHealthChecker c.1 os
    (r.1, c.2.toList ++ r.2)

/-- Number of loop iterations `healthChecker` executes on a list of outcomes:
each outcome, failure or not, is followed by `time.Sleep(checkInterval)` and
the next iteration (the `continue` after a build error, the fallthrough after
the other branches); no branch exits the loop. -/
def runCycleCount : Bool → List ProbeOutcome → Nat
  | _, [] => 0
  | s, o :: os => 1 + runCycleCount (healthCycle s o).1 os

/-- Initial value of the shared flag, from `status := &ServerStatus{serverAOnline: true}`
in `main` (src/main.go line 46). -/
def initialServerAOnline : Bool := true

/-- The two upstream proxies built in `main`: `proxyA` (primary, server A) and
`proxyB` (secondary, server B). -/
inductive Backend where
  | primary : Backend
  | secondary : Backend
deriving DecidableEq, Repr

/-- Embedding of the request handler registered in `main` (src/main.go lines
50-65): it reads `status.serverAOnline` once under `RLock` into
`serverAIsOnline`, then forwards to `proxyA` if that value is true and to
`proxyB` otherwise. -/
def handleRequest (serverAIsOnline : Bool) : Backend :=
  if serverAIsOnline then .primary else .secondary

/-- Interleaved trace events of the running process: a probe cycle completing
in the `healthChecker` goroutine, or an inbound request (method, path) hitting
the handler. -/
inductive SysEvent where
  | probe : ProbeOutcome → SysEvent
  | request : (method path : String) → SysEvent

/-- System run over an interleaved trace: the shared flag is updated by probe
events via `healthCycle` and read by request events via `handleRequest`; the
result lists the backend chosen for each request, in order. -/
def runSystem : Bool → List SysEvent → List Backend
  | _, [] => []
  | s, .probe o :: evs => runSystem (healthCycle s o).1 evs
  | s, .request _ _ :: evs => handleRequest s :: runSystem s evs

/-- Modelled from the spec (section 4.3, FailoverRouter): the routing the spec
prescribes, stated in the spec's own words — the decision for each request
depends only on the classification of the most recently completed probe
(initially online), primary when online, secondary when offline. Used as the
comparison point for the refinement claim about the router. -/
def routeSpec : Bool → List SysEvent → List Backend
  | _, [] => []
  | _, .probe o :: evs => routeSpec (classify o) evs
  | s, .request _ _ :: evs => (if s then .primary else .secondary) :: routeSpec s evs

/-- Go `http.Header` restricted to what `main.go` touches: a total map from
(already canonical) header keys to the list of values set for the key. -/
abbrev Header : Type := String → List String

/-- Go `Header.Get`: the first value associated with the key, or `""` when the
key is absent. -/
def Header.get (h : Header) (key : String) : String :=
  match h key with
  | [] => ""
  | v :: _ => v

/-- Go `Header.Set`: replace all values of the key by the single given value. -/
def Header.set (h : Header) (key value : String) : Header :=
  fun k => if k = key then [value] else h k

/-- An inbound HTTP request, restricted to the parts `main.go` inspects. -/
structure Request where
  method : String
  path : String
  header : Header

/-- Embedding of `isWebSocketRequest` (src/main.go lines 99-102): a
case-sensitive exact comparison of the `Get`-views of the two headers. -/
def isWebSocketRequest (req : Request) : Bool :=
  req.header.get "Upgrade" == "websocket" && req.header.get "Connection" == "Upgrade"

/-- Embedding of the `Director` wrapper installed by `configureWebsocketProxy`
(src/main.go lines 75-89), restricted to its effect on headers (the wrapped
`originalDirector` of `NewSingleHostReverseProxy` rewrites only the target
URL, and `User-Agent` when absent — it touches neither `Connection` nor
`Upgrade`): when the request is classified as a WebSocket request, a non-empty
`Connection` header is `Set` to `"Upgrade"`, then a non-empty `Upgrade` header
is `Set` to `"websocket"`; otherwise the request passes through unchanged. -/
def websocketNormalize (req : Request) : Request :=
  if isWebSocketRequest req then
    let req1 :=
      if req.header.get "Connection" != "" then
        { req with header := req.header.set "Connection" "Upgrade" }
      else req
    let req2 :=
      if req1.header.get "Upgrade" != "" then
        { req1 with header := req1.header.set "Upgrade" "websocket" }
      else req1
    req2
  else req

/-- A concrete request carrying `Upgrade: websocket` but no `Connection`
header at all. -/
def reqOnlyUpgrade : Request :=
  { method := "GET", path := "/ws",
    header := fun k => if k = "Upgrade" then ["websocket"] else [] }

/-- A concrete request with a case-variant `Upgrade` value alongside
`Connection: Upgrade`. -/
def reqCaseVariant : Request :=
  { method := "GET", path := "/ws",
    header := fun k =>
      if k = "Upgrade" then ["WebSocket"]
      else if k = "Connection" then ["Upgrade"] else [] }

/-- A concrete request whose `Connection` header carries two values
(two `Connection:` lines), the first being `Upgrade`. -/
def reqMultiConnection : Request :=
  { method := "GET", path := "/ws",
    header := fun k =>
      if k = "Connection" then ["Upgrade", "keep-alive"]
      else if k = "Upgrade" then ["websocket"] else [] }

/-- A concrete well-formed upgrade request with single-valued headers. -/
def reqSingleUpgrade : Request :=
  { method := "GET", path := "/ws",
    header := fun k =>
      if k = "Connection" then ["Upgrade"]
      else if k = "Upgrade" then ["websocket"] else [] }

/-! Model of the fragment of Go's `net/url.Parse` exercised by `main`'s
startup. It follows `url.parse(rawURL, viaRequest := false)` clause by
clause: the control-byte check, `getScheme`, the query split, the
opaque/rootless case, the colon-in-first-segment check for relative
references, the authority split and `parseHost`'s bracket and port
validation. Percent-decoding (`unescape`) and userinfo validation are elided:
they can only fail on inputs containing `%` or `@`-userinfo, which no input
considered here contains. -/

/-- Result of Go's `net/url.Parse`: the fields of `url.URL` that `main.go`'s
startup can observe (`Opaque` is named `opq` here). `IsAbs` is
`scheme ≠ ""`. -/
structure GoURL where
  scheme : String
  opq : String
  host : String
  path : String
  rawQuery : String
deriving DecidableEq, Repr

/-- Go `URL.IsAbs`: a URL is absolute when it has a scheme. -/
def GoURL.isAbs (u : GoURL) : Bool := u.scheme != ""

/-- Go `stringContainsCTLByte`: any byte below 0x20 or equal to 0x7f (inputs
here are ASCII, so bytes and runes coincide). -/
def containsCTLByte (s : String) : Bool :=
  s.toList.any (fun c => c.toNat < 0x20 || c.toNat == 0x7f)

/-- Split a character list at the first occurrence of `sep`: the parts before
and after it, or `none` when absent. -/
def splitFirstAux (sep : Char) : List Char → Option (List Char × List Char)
  | [] => none
  | c :: cs =>
    if c = sep then some ([], cs)
    else
      match splitFirstAux sep cs with
      | none => none
      | some (l, r) => some (c :: l, r)

/-- Go `split(s, sep, cutc := true)`: the parts before and after the first
occurrence of `sep` (the whole list and `[]` when absent). -/
def cutList (l : List Char) (sep : Char) : List Char × List Char :=
  match splitFirstAux sep l with
  | none => (l, [])
  | some (a, b) => (a, b)

/-- Go `authority[:i], authority[i:]` at the first occurrence of `sep`: like
`cutList` but the separator stays at the front of the second part. -/
def cutListKeep (l : List Char) (sep : Char) : List Char × List Char :=
  match splitFirstAux sep l with
  | none => (l, [])
  | some (a, b) => (a, sep :: b)

/-- Go `strings.HasPrefix` on character lists (pattern first). -/
def charsStartWith : List Char → List Char → Bool
  | [], _ => true
  | _ :: _, [] => false
  | p :: ps, c :: cs => p == c && charsStartWith ps cs

/-- ASCII lower-casing of one character (the only case `strings.ToLower`
meets here: scheme characters are ASCII by construction of `getScheme`). -/
def lowerChar (c : Char) : Char :=
  if 'A' ≤ c && c ≤ 'Z' then Char.ofNat (c.toNat + 32) else c

/-- Go `strings.ToLower` on the ASCII strings produced by `getScheme`. -/
def lowerString (s : String) : String :=
  String.mk (s.toList.map lowerChar)

/-- Split a character list at the last occurrence of `sep`: the parts before
and after it, or `none` when absent (Go `strings.LastIndex`). -/
def splitLastAux (sep : Char) : List Char → Option (List Char × List Char)
  | [] => none
  | c :: cs =>
    match splitLastAux sep cs with
    | some (l, r) => some (c :: l, r)
    | none => if c = sep then some ([], cs) else none

/-- Scheme characters after the first: ALPHA / DIGIT / `+` / `-` / `.`. -/
def isSchemeAlpha (c : Char) : Bool :=
  (('a' ≤ c && c ≤ 'z') || ('A' ≤ c && c ≤ 'Z'))

/-- The extra characters Go's `getScheme` allows after the first position. -/
def isSchemeExtra (c : Char) : Bool :=
  ('0' ≤ c && c ≤ '9') || c == '+' || c == '-' || c == '.'

/-- Core loop of Go's `getScheme`: `acc` holds the scheme characters read so
far (reversed). Returns `none` when the URL has no scheme (digit/extra at
position 0, an invalid character, or no colon at all), an error when the
colon appears at position 0, and the scheme with the remainder otherwise. -/
def getSchemeCore (acc : List Char) : List Char → Except String (Option (String × List Char))
  | [] => .ok none
  | c :: cs =>
    if isSchemeAlpha c then getSchemeCore (c :: acc) cs
    else if isSchemeExtra c then
      if acc.isEmpty then .ok none else getSchemeCore (c :: acc) cs
    else if c = ':' then
      if acc.isEmpty then .error "missing protocol scheme"
      else .ok (some (String.mk acc.reverse, cs))
    else .ok none

/-- Go `getScheme`: split `scheme:rest`, or return the whole string with an
empty scheme when no valid scheme introducer is present. -/
def getScheme (rawURL : List Char) : Except String (String × List Char) :=
  match getSchemeCore [] rawURL with
  | .error e => .error e
  | .ok none => .ok ("", rawURL)
  | .ok (some (sch, rest)) => .ok (sch, rest)

/-- Go `validOptionalPort`: empty, or `:` followed by digits only. -/
def validOptionalPort (port : List Char) : Bool :=
  match port with
  | [] => true
  | c :: ds => c == ':' && ds.all (fun d => '0' ≤ d && d ≤ '9')

/-- Go `parseHost`, restricted to the bracket check and port validation
(host percent-decoding elided: no input considered here contains `%`). -/
def parseHost (host : List Char) : Except String String :=
  if charsStartWith ['['] host then
    match splitLastAux ']' host with
    | none => .error "missing closing bracket in host"
    | some (_, afterBracket) =>
      if !validOptionalPort afterBracket then
        .error "invalid port after host"
      else .ok (String.mk host)
  else
    match splitLastAux ':' host with
    | none => .ok (String.mk host)
    | some (_, afterColon) =>
      if !validOptionalPort (':' :: afterColon) then
        .error "invalid port after host"
      else .ok (String.mk host)

/-- Go `parseAuthority`: userinfo (before the last `@`) is split off and its
validation elided (no input considered here contains `@`); the host part is
checked by `parseHost`. -/
def parseAuthority (authority : List Char) : Except String String :=
  match splitLastAux '@' authority with
  | none => parseHost authority
  | some (_, hostPart) => parseHost hostPart

/-- Go `url.parse(rawURL, viaRequest := false)` on the fragment-free part. -/
def parseFragmentless (rawURL : String) : Except String GoURL :=
  if containsCTLByte rawURL then
    .error "net/url: invalid control character in URL"
  else if rawURL == "*" then
    .ok { scheme := "", opq := "", host := "", path := "*", rawQuery := "" }
  else
    match getScheme rawURL.toList with
    | .error e => .error e
    | .ok (schemeRaw, rest0) =>
      let scheme := lowerString schemeRaw
      let forceQ := (rest0.getLast? == some '?') && !(rest0.dropLast.contains '?')
      let restQ := if forceQ then (rest0.dropLast, ([] : List Char)) else cutList rest0 '?'
      let rest := restQ.1
      let rawQuery := String.mk restQ.2
      if !(charsStartWith ['/'] rest) && scheme != "" then
        .ok { scheme, opq := String.mk rest, host := "", path := "", rawQuery }
      else if !(charsStartWith ['/'] rest) && (cutList rest '/').1.contains ':' then
        .error "first path segment in URL cannot contain colon"
      else if charsStartWith ['/', '/'] rest &&
          (scheme != "" || !(charsStartWith ['/', '/', '/'] rest)) then
        let split := cutListKeep (rest.drop 2) '/'
        match parseAuthority split.1 with
        | .error e => .error e
        | .ok host => .ok { scheme, opq := "", host, path := String.mk split.2, rawQuery }
      else
        .ok { scheme, opq := "", host := "", path := String.mk rest, rawQuery }

/-- Go `net/url.Parse`: cut the fragment at the first `#`, then parse the rest
(fragment percent-decoding elided: it fails only on malformed `%` escapes,
which no input considered here contains). -/
def urlParse (rawURL : String) : Except String GoURL :=
  parseFragmentless (String.mk (cutList rawURL.toList '#').1)

/-- The two fatal startup errors of `main` (src/main.go lines 30-38): the
`log.Fatalf` calls after `url.Parse(serverAAddr)` and `url.Parse(serverBAddr)`
fail. -/
inductive StartupError where
  | parseAFailed : String → StartupError
  | parseBFailed : String → StartupError
deriving DecidableEq, Repr

/-- Configuration main builds when both URLs parse. -/
structure Config where
  serverA : GoURL
  serverB : GoURL
deriving DecidableEq, Repr

/-- Embedding of `main`'s startup sequence (src/main.go lines 30-38): parse
server A's URL, `log.Fatalf` (exit with non-zero status) on error; then the
same for server B. Only the `err != nil` result of `url.Parse` is inspected —
nothing checks `IsAbs`. -/
def startup (serverAAddr serverBAddr : String) : Except StartupError Config :=
  match urlParse serverAAddr with
  | .error e => .error (.parseAFailed e)
  | .ok a =>
    match urlParse serverBAddr with
    | .error e => .error (.parseBFailed e)
    | .ok b => .ok { serverA := a, serverB := b }

/-- Where `main` ends up: a fatal exit during startup (non-zero exit via
`log.Fatalf`, reached before `http.ListenAndServe`), or the listener bound
with both parsed URLs in hand. -/
inductive MainPhase where
  | fatalExit : StartupError → MainPhase
  | listenerBound : Config → MainPhase
deriving DecidableEq, Repr

/-- Sequencing of `main` (src/main.go lines 29-72): the two `url.Parse` calls
and their `log.Fatalf` error paths all run before `http.ListenAndServe` binds
the listener. -/
def mainPhase (serverAAddr serverBAddr : String) : MainPhase :=
  match startup serverAAddr serverBAddr with
  | .error e => .fatalExit e
  | .ok cfg => .listenerBound cfg

/-- The `url.URL` value Go's `url.Parse` produces for the relative reference
`"/relative"`: no error, empty scheme, so not an absolute URL. -/
def relativeURL : GoURL :=
  { scheme := "", opq := "", host := "", path := "/relative", rawQuery := "" }

/-- The `url.URL` value Go's `url.Parse` produces for `"http://b.example"`. -/
def serverBURL : GoURL :=
  { scheme := "http", opq := "", host := "b.example", path := "", rawQuery := "" }

/-! Helper lemmas shared by the claim theorems. -/

/-- The stored flag after `setServerAStatus` always equals the `online`
argument. -/
theorem setServerAStatus_fst (current online : Bool) :
    (setServerAStatus current online).1 = online := by
  cases current <;> cases online <;> rfl

/-- Writing the value already stored changes nothing and logs nothing. -/
theorem setServerAStatus_same (b : Bool) : setServerAStatus b b = (b, none) := by
  cases b <;> rfl

/-- The stored flag after one health cycle is the outcome's classification. -/
theorem healthCycle_fst (s : Bool) (o : ProbeOutcome) :
    (healthCycle s o).1 = classify o := by
  cases o <;> simp [healthCycle, classify, setServerAStatus_fst]

/-- A health cycle whose outcome classifies to the stored value is silent. -/
theorem healthCycle_self (o : ProbeOutcome) :
    healthCycle (classify o) o = (classify o, none) := by
  cases o <;> simp [healthCycle, classify, setServerAStatus_same]

/-- Unfolding one iteration of the health-checker loop. -/
theorem runHealthChecker_cons (s : Bool) (o : ProbeOutcome) (os : List ProbeOutcome) :
    runHealthChecker s (o :: os) =
      ((runHealthChecker (healthCycle s o).1 os).1,
       (healthCycle s o).2.toList ++ (runHealthChecker (healthCycle s o).1 os).2) := rfl

/-- The stored flag after a run ending in outcome `o` is `classify o`,
whatever ran before. -/
theorem runHealthChecker_last (s : Bool) (os : List ProbeOutcome) (o : ProbeOutcome) :
    (runHealthChecker s (os ++ [o])).1 = classify o := by
  induction os generalizing s with
  | nil => simp [runHealthChecker, healthCycle_fst]
  | cons p ps ih => simpa [runHealthChecker_cons] using ih (healthCycle s p).1

/-- Repeating an outcome whose classification is already stored does nothing. -/
theorem runHealthChecker_steady (o : ProbeOutcome) (n : Nat) :
    runHealthChecker (classify o) (List.replicate n o) = (classify o, []) := by
  induction n with
  | zero => rfl
  | succ n ih => simp [List.replicate_succ, runHealthChecker_cons, healthCycle_self, ih]

/-- The health-checker loop executes one cycle per outcome, regardless of the
outcomes. -/
theorem runCycleCount_length (s : Bool) (os : List ProbeOutcome) :
    runCycleCount s os = os.length := by
  induction os generalizing s with
  | nil => rfl
  | cons o os ih => simp [runCycleCount, ih, Nat.add_comm]

/-- The implemented system run refines the spec-worded routing. -/
theorem runSystem_eq_routeSpec (s : Bool) (evs : List SysEvent) :
    runSystem s evs = routeSpec s evs := by
  induction evs generalizing s with
  | nil => rfl
  | cons e evs ih =>
    cases e with
    | probe o => simp [runSystem, routeSpec, healthCycle_fst, ih]
    | request m p => simp [runSystem, routeSpec, handleRequest, ih]

/-- Reading a key just set returns the set value. -/
theorem Header.get_set_same (h : Header) (k v : String) : (h.set k v).get k = v := by
  simp [Header.get, Header.set]

/-- Setting one key leaves the `Get`-view of any other key unchanged. -/
theorem Header.get_set_other (h : Header) (k k2 v : String) (hne : k2 ≠ k) :
    (h.set k v).get k2 = h.get k2 := by
  simp [Header.get, Header.set, hne]

/-- On a classified request both `Set` branches of the director wrapper fire,
so the result is the request with `Connection` set to `"Upgrade"` and then
`Upgrade` set to `"websocket"`. -/
theorem websocketNormalize_classified (req : Request)
    (h : isWebSocketRequest req = true) :
    websocketNormalize req =
      { req with
        header := (req.header.set "Connection" "Upgrade").set "Upgrade" "websocket" } := by
  have hb := h
  rw [isWebSocketRequest, Bool.and_eq_true, beq_iff_eq, beq_iff_eq] at hb
  obtain ⟨hu, hc⟩ := hb
  have hgu : (req.header.set "Connection" "Upgrade").get "Upgrade" = "websocket" := by
    rw [Header.get_set_other _ _ _ _ (by decide)]
    exact hu
  simp [websocketNormalize, h, hc, hu, hgu]

/-- An unclassified request passes through the director wrapper unchanged. -/
theorem websocketNormalize_unclassified (req : Request)
    (h : isWebSocketRequest req = false) :
    websocketNormalize req = req := by
  simp [websocketNormalize, h]

/-! Claim theorems. -/

/-- Claim C1: for every inbound request the router reads the shared liveness
flag once and forwards to the primary proxy when it is true and to the
secondary proxy when it is false; over any interleaved trace of probe
completions and requests, each request's decision depends only on the flag
value currently visible (the classification of the most recently completed
probe, initially online), independently for every request. -/
theorem router_dispatches_on_liveness :
    handleRequest true = Backend.primary ∧
    handleRequest false = Backend.secondary ∧
    (∀ evs : List SysEvent,
      runSystem initialServerAOnline evs = routeSpec initialServerAOnline evs) :=
  ⟨rfl, rfl, fun evs => runSystem_eq_routeSpec initialServerAOnline evs⟩

/-- Claim C2: before any probe has completed the shared flag reads `true`;
after the Nth probe completes it equals the Nth outcome's classification —
`true` for any received response regardless of status code, `false` for a
transport failure, timeout, or request-construction error. -/
theorem status_reflects_last_probe :
    (runHealthChecker initialServerAOnline []).1 = true ∧
    (∀ (os : List ProbeOutcome) (o : ProbeOutcome),
      (runHealthChecker initialServerAOnline (os ++ [o])).1 = classify o) ∧
    (∀ code, classify (ProbeOutcome.response code) = true) ∧
    (∀ t, classify (ProbeOutcome.transportError t) = false) ∧
    classify ProbeOutcome.buildError = false :=
  ⟨rfl, fun os o => runHealthChecker_last initialServerAOnline os o,
   fun _ => rfl, fun _ => rfl, rfl⟩

/-- Claim C3: the write operation sets the stored flag to the given value; it
detects a change exactly when the stored value differs from the argument, and
on a change it emits exactly one transition event — switch to primary when the
new value is online, switch to secondary when it is offline — and no event
otherwise. -/
theorem write_sets_value_and_reports_change :
    ∀ current online : Bool,
      (setServerAStatus current online).1 = online ∧
      (setServerAStatus current online).2.isSome = (current != online) ∧
      (setServerAStatus current online).2.toList.length =
        (if current != online then 1 else 0) ∧
      (setServerAStatus current online).2 =
        (if current != online then
          some (if online then TransitionEvent.switchToPrimary
                else TransitionEvent.switchToSecondary)
         else none) := by
  decide

/-- Claim C4: every per-cycle failure (probe build error, transport error,
timeout) takes the same path — `setServerAStatus(status, false)`, marking the
primary offline for that cycle — and the monitor loop never exits: it executes
one cycle per outcome whatever the outcomes are. -/
theorem probe_failures_uniform_and_loop_continues :
    (∀ s : Bool,
      healthCycle s ProbeOutcome.buildError = setServerAStatus s false ∧
      (∀ t, healthCycle s (ProbeOutcome.transportError t) = setServerAStatus s false) ∧
      (healthCycle s ProbeOutcome.buildError).1 = false ∧
      (∀ t, (healthCycle s (ProbeOutcome.transportError t)).1 = false)) ∧
    (∀ (s : Bool) (os : List ProbeOutcome), runCycleCount s os = os.length) := by
  refine ⟨fun s => ⟨rfl, fun t => rfl, ?_, fun t => ?_⟩, runCycleCount_length⟩ <;>
    simp [healthCycle_fst, classify]

/-- Claim C5: a request is classified as a WebSocket upgrade iff its `Upgrade`
header reads `"websocket"` and its `Connection` header reads `"Upgrade"`,
case-sensitively; a request carrying only `Upgrade: websocket`, or a
case-variant value, is not classified and passes through the director wrapper
unchanged. -/
theorem websocket_classification_exact :
    (∀ req : Request,
      isWebSocketRequest req = true ↔
        (req.header.get "Upgrade" = "websocket" ∧
         req.header.get "Connection" = "Upgrade")) ∧
    isWebSocketRequest reqOnlyUpgrade = false ∧
    websocketNormalize reqOnlyUpgrade = reqOnlyUpgrade ∧
    isWebSocketRequest reqCaseVariant = false ∧
    isWebSocketRequest reqSingleUpgrade = true := by
  refine ⟨fun req => ?_, rfl, rfl, rfl, rfl⟩
  simp [isWebSocketRequest, Bool.and_eq_true, beq_iff_eq]

/-- Claim C5 witness: the classification criterion applied to a concrete
well-formed upgrade request. -/
theorem websocket_classification_exact_witness :
    isWebSocketRequest reqSingleUpgrade = true :=
  (websocket_classification_exact.1 reqSingleUpgrade).mpr ⟨rfl, rfl⟩

/-- Claim C6: repeated identical probe outcomes are idempotent: a run of
`n + 1` copies of the same outcome emits exactly the events of its first
cycle — nothing after the first write — and the stored value is the one the
first cycle established; writing the stored value back is a no-op. -/
theorem repeated_identical_outcomes_idempotent :
    (∀ b : Bool, setServerAStatus b b = (b, none)) ∧
    (∀ (s : Bool) (o : ProbeOutcome) (n : Nat),
      runHealthChecker s (List.replicate (n + 1) o) =
        ((healthCycle s o).1, (healthCycle s o).2.toList)) := by
  refine ⟨setServerAStatus_same, fun s o n => ?_⟩
  rw [List.replicate_succ, runHealthChecker_cons, healthCycle_fst,
    runHealthChecker_steady]
  simp [healthCycle_fst]

/-- Claim C7 counterexample: `"/relative"` does not parse as an absolute URL —
`url.Parse` succeeds with an empty scheme — yet startup does not terminate:
`main` reaches the listener-binding phase, because it inspects only the parse
error and never checks absoluteness. -/
theorem relative_url_not_fatal :
    urlParse "/relative" = Except.ok relativeURL ∧
    relativeURL.isAbs = false ∧
    mainPhase "/relative" "http://b.example" =
      MainPhase.listenerBound { serverA := relativeURL, serverB := serverBURL } := by
  exact ⟨rfl, rfl, rfl⟩

/-- Claim C7 as amended: a primary or secondary backend URL on which
`url.Parse` returns an error causes an immediate fatal exit with non-zero
status before the listener is bound; when both URLs parse — absolute or not —
startup proceeds to bind the listener. -/
theorem startup_fatal_iff_parse_error :
    (∀ a b ea, urlParse a = Except.error ea →
      mainPhase a b = MainPhase.fatalExit (StartupError.parseAFailed ea)) ∧
    (∀ a b ua eb, urlParse a = Except.ok ua → urlParse b = Except.error eb →
      mainPhase a b = MainPhase.fatalExit (StartupError.parseBFailed eb)) ∧
    (∀ a b ua ub, urlParse a = Except.ok ua → urlParse b = Except.ok ub →
      mainPhase a b = MainPhase.listenerBound { serverA := ua, serverB := ub }) := by
  refine ⟨?_, ?_, ?_⟩
  · intro a b ea ha
    simp [mainPhase, startup, ha]
  · intro a b ua eb ha hb
    simp [mainPhase, startup, ha, hb]
  · intro a b ua ub ha hb
    simp [mainPhase, startup, ha, hb]

/-- Claim C7 witness: a URL Go's parser rejects (a colon with no scheme
before it) is fatal at startup. -/
theorem startup_fatal_iff_parse_error_witness :
    mainPhase ":bad" "http://b.example" =
      MainPhase.fatalExit (StartupError.parseAFailed "missing protocol scheme") :=
  startup_fatal_iff_parse_error.1 ":bad" "http://b.example"
    "missing protocol scheme" rfl

/-- Claim C8: on every request classified as an upgrade request, the outgoing
header normalization leaves the `Connection` header reading `"Upgrade"` and
the `Upgrade` header reading `"websocket"` before forwarding; the request is
forwarded, never rejected. -/
theorem upgrade_normalization_forces_headers :
    ∀ req : Request, isWebSocketRequest req = true →
      (websocketNormalize req).header.get "Connection" = "Upgrade" ∧
      (websocketNormalize req).header.get "Upgrade" = "websocket" := by
  intro req h
  rw [websocketNormalize_classified req h]
  constructor
  · rw [show ({ req with
        header := (req.header.set "Connection" "Upgrade").set "Upgrade" "websocket"
        } : Request).header =
        (req.header.set "Connection" "Upgrade").set "Upgrade" "websocket" from rfl,
      Header.get_set_other _ _ _ _ (by decide), Header.get_set_same]
  · rw [show ({ req with
        header := (req.header.set "Connection" "Upgrade").set "Upgrade" "websocket"
        } : Request).header =
        (req.header.set "Connection" "Upgrade").set "Upgrade" "websocket" from rfl,
      Header.get_set_same]

/-- Claim C8 witness: the normalization applied to a concrete classified
upgrade request. -/
theorem upgrade_normalization_forces_headers_witness :
    (websocketNormalize reqSingleUpgrade).header.get "Connection" = "Upgrade" ∧
    (websocketNormalize reqSingleUpgrade).header.get "Upgrade" = "websocket" :=
  upgrade_normalization_forces_headers reqSingleUpgrade rfl

/-- Claim C9 counterexample: a classified request whose `Connection` header
carries two values (`Upgrade` first, then `keep-alive`) is changed by the
normalization — `Header.Set` collapses the value list to `["Upgrade"]` — so
the repair branches are not the identity on the headers of every classified
request. -/
theorem normalize_changes_multivalued_connection :
    isWebSocketRequest reqMultiConnection = true ∧
    reqMultiConnection.header "Connection" = ["Upgrade", "keep-alive"] ∧
    (websocketNormalize reqMultiConnection).header "Connection" = ["Upgrade"] ∧
    (((websocketNormalize reqMultiConnection).header "Connection" ==
        reqMultiConnection.header "Connection") = false) := by
  refine ⟨rfl, rfl, ?_, ?_⟩ <;> rfl

/-- Claim C9 as amended: on every classified request the normalization
preserves the `Get`-view (first value) of the `Connection` and `Upgrade`
headers, and it is the identity on the whole header map whenever each of
those two headers carries exactly one value — as classification constrains
only the first value, a classified request with additional values on either
header is modified (the extra values are dropped); a request that is not
classified is never touched. -/
theorem normalize_preserves_get_view :
    (∀ req : Request, isWebSocketRequest req = true →
      (websocketNormalize req).header.get "Connection" = req.header.get "Connection" ∧
      (websocketNormalize req).header.get "Upgrade" = req.header.get "Upgrade" ∧
      (req.header "Connection" = ["Upgrade"] → req.header "Upgrade" = ["websocket"] →
        ∀ k, (websocketNormalize req).header k = req.header k)) ∧
    (∀ req : Request, isWebSocketRequest req = false → websocketNormalize req = req) := by
  refine ⟨fun req h => ?_, websocketNormalize_unclassified⟩
  have hb := h
  rw [isWebSocketRequest, Bool.and_eq_true, beq_iff_eq, beq_iff_eq] at hb
  obtain ⟨hu, hc⟩ := hb
  rw [websocketNormalize_classified req h]
  refine ⟨?_, ?_, fun h1 h2 k => ?_⟩
  · rw [show ({ req with
        header := (req.header.set "Connection" "Upgrade").set "Upgrade" "websocket"
        } : Request).header =
        (req.header.set "Connection" "Upgrade").set "Upgrade" "websocket" from rfl,
      Header.get_set_other _ _ _ _ (by decide), Header.get_set_same, hc]
  · rw [show ({ req with
        header := (req.header.set "Connection" "Upgrade").set "Upgrade" "websocket"
        } : Request).header =
        (req.header.set "Connection" "Upgrade").set "Upgrade" "websocket" from rfl,
      Header.get_set_same, hu]
  · show ((req.header.set "Connection" "Upgrade").set "Upgrade" "websocket") k =
      req.header k
    by_cases hk : k = "Upgrade"
    · subst hk
      simp [Header.set, h2]
    · by_cases hk2 : k = "Connection"
      · subst hk2
        simp [Header.set, h1, show ("Connection" : String) ≠ "Upgrade" from by decide]
      · simp [Header.set, hk, hk2]

/-- Claim C9 amended witness: the pointwise identity on a concrete classified
request with single-valued headers, evaluated at the `Connection` key. -/
theorem normalize_preserves_get_view_witness :
    (websocketNormalize reqSingleUpgrade).header "Connection" =
      reqSingleUpgrade.header "Connection" :=
  (normalize_preserves_get_view.1 reqSingleUpgrade rfl).2.2 rfl rfl "Connection"
